import Mathlib

/-!
Shallow embedding of `src/packages/core/src/WebGPUEngine.ts` (GWebGPUEngine).

The engine is modelled as a pure state machine.  GPU-side objects
(buffers, textures, pipelines, command buffers) are plain data; device
calls that create objects mint fresh ids from a counter; device calls
with external effects (buffer destruction, queue submission, pass
begin/end) append entries to an event trace stored in the state.

External collaborators that the spec puts out of scope (the glslang
shader compiler, adapter/device acquisition in `init`, the canvas
`gpupresent` context) are not modelled; `swapChain.getCurrentTexture()`
is modelled as a rotating counter since it returns a fresh image per
call.  `options.swapChainFormat` is modelled as a plain field (the code
asserts it non-null with `!`).
-/

namespace GWebGPU

/-- GPU texture formats used by the engine (`WebGPUConstants.TextureFormat`). -/
inductive TextureFormat where
  | BGRA8Unorm
  | Depth24PlusStencil8
  | RGBA8Unorm
  | other (s : String)
deriving DecidableEq, Repr

/-- A clear color (`GPUColor`); component values are abstract integers. -/
structure GPUColor where
  r : Int
  g : Int
  b : Int
  a : Int
deriving DecidableEq, Repr

/-- A programmable stage descriptor: shader module handle plus entry point. -/
structure ProgrammableStage where
  module : Nat
  entryPoint : String
deriving DecidableEq, Repr

/-- `GPURasterizationStateDescriptor` with every field resolved. -/
structure GPURasterizationStateDescriptor where
  frontFace : String
  cullMode : String
  depthBias : Int
  depthBiasSlopeScale : Int
  depthBiasClamp : Int
deriving DecidableEq, Repr

/-- Caller-supplied rasterization state: any subset of fields, merged over
the defaults by the JS object spread in `getRenderPipeline`. -/
structure RasterizationOverrides where
  frontFace : Option String := none
  cullMode : Option String := none
  depthBias : Option Int := none
  depthBiasSlopeScale : Option Int := none
  depthBiasClamp : Option Int := none
deriving DecidableEq, Repr

/-- `GPUStencilStateFaceDescriptor`. -/
structure GPUStencilStateFaceDescriptor where
  compare : String
  depthFailOp : String
  failOp : String
  passOp : String
deriving DecidableEq, Repr

/-- `GPUDepthStencilStateDescriptor` with every field resolved. -/
structure GPUDepthStencilStateDescriptor where
  depthWriteEnabled : Bool
  depthCompare : String
  format : TextureFormat
  stencilFront : GPUStencilStateFaceDescriptor
  stencilBack : GPUStencilStateFaceDescriptor
  stencilReadMask : Nat
  stencilWriteMask : Nat
deriving DecidableEq, Repr

/-- Caller-supplied depth-stencil state: any subset of fields (JS spread
is shallow, so sub-objects replace wholesale). -/
structure DepthStencilOverrides where
  depthWriteEnabled : Option Bool := none
  depthCompare : Option String := none
  format : Option TextureFormat := none
  stencilFront : Option GPUStencilStateFaceDescriptor := none
  stencilBack : Option GPUStencilStateFaceDescriptor := none
  stencilReadMask : Option Nat := none
  stencilWriteMask : Option Nat := none
deriving DecidableEq, Repr

/-- Blend descriptor (`https://gpuweb.github.io/gpuweb/#blend-state`). -/
structure GPUBlendDescriptor where
  srcFactor : String
  dstFactor : String
  operation : String
deriving DecidableEq, Repr

/-- `GPUColorStateDescriptor`. -/
structure GPUColorStateDescriptor where
  format : TextureFormat
  alphaBlend : GPUBlendDescriptor
  colorBlend : GPUBlendDescriptor
  writeMask : Nat
deriving DecidableEq, Repr

/-- The descriptor accepted by `setRenderPipeline` / `getRenderPipeline` /
the draw calls: the `WithOptional<Pick<GPURenderPipelineDescriptor, ...>>`
type of the source.  `vertexStage` is required by the TS type but the code
still checks its presence at runtime, so it is optional here too. -/
structure RenderPipelineDescriptor where
  primitiveTopology : Option String := none
  rasterizationState : Option RasterizationOverrides := none
  depthStencilState : Option DepthStencilOverrides := none
  colorStates : Option (List GPUColorStateDescriptor) := none
  vertexStage : Option ProgrammableStage := none
  fragmentStage : Option ProgrammableStage := none
  vertexState : Option Nat := none
  layout : Option Nat := none
deriving DecidableEq, Repr

/-- A compiled `GPURenderPipeline`: `device.createRenderPipeline` is pure
in the model, so a pipeline is identified with the fully resolved
descriptor it was created from. -/
structure GPURenderPipeline where
  sampleCount : Nat
  primitiveTopology : String
  rasterizationState : GPURasterizationStateDescriptor
  depthStencilState : GPUDepthStencilStateDescriptor
  colorStates : List GPUColorStateDescriptor
  layout : Option Nat
  vertexStage : ProgrammableStage
  fragmentStage : ProgrammableStage
  vertexState : Option Nat
deriving DecidableEq, Repr

/-- `GPUComputePipelineDescriptor`. -/
structure GPUComputePipelineDescriptor where
  computeStage : ProgrammableStage
  layout : Option Nat := none
deriving DecidableEq, Repr

/-- A compiled `GPUComputePipeline`: identified with its descriptor. -/
structure GPUComputePipeline where
  desc : GPUComputePipelineDescriptor
deriving DecidableEq, Repr

/-- `getDefaultRasterizationStateDescriptor` of the source. -/
def getDefaultRasterizationStateDescriptor : GPURasterizationStateDescriptor :=
  { frontFace := "ccw"
    cullMode := "none"
    depthBias := 0
    depthBiasSlopeScale := 0
    depthBiasClamp := 0 }

/-- `getDefaultDepthStencilStateDescriptor` of the source. -/
def getDefaultDepthStencilStateDescriptor : GPUDepthStencilStateDescriptor :=
  let stencilFrontBack : GPUStencilStateFaceDescriptor :=
    { compare := "always"
      depthFailOp := "keep"
      failOp := "keep"
      passOp := "keep" }
  { depthWriteEnabled := false
    depthCompare := "always"
    format := TextureFormat.Depth24PlusStencil8
    stencilFront := stencilFrontBack
    stencilBack := stencilFrontBack
    stencilReadMask := 0xffffffff
    stencilWriteMask := 0xffffffff }

/-- `getDefaultColorStateDescriptors` of the source, parameterized by the
configured swap-chain format (`this.options.swapChainFormat!`). -/
def getDefaultColorStateDescriptors (swapChainFormat : TextureFormat) :
    List GPUColorStateDescriptor :=
  [{ format := swapChainFormat
     alphaBlend := { srcFactor := "one", dstFactor := "zero", operation := "add" }
     colorBlend := { srcFactor := "one", dstFactor := "zero", operation := "add" }
     writeMask := 0xf }]

/-- The JS spread `{...defaults, ...rasterizationState}`. -/
def mergeRasterizationState (base : GPURasterizationStateDescriptor)
    (o : Option RasterizationOverrides) : GPURasterizationStateDescriptor :=
  match o with
  | none => base
  | some o =>
    { frontFace := o.frontFace.getD base.frontFace
      cullMode := o.cullMode.getD base.cullMode
      depthBias := o.depthBias.getD base.depthBias
      depthBiasSlopeScale := o.depthBiasSlopeScale.getD base.depthBiasSlopeScale
      depthBiasClamp := o.depthBiasClamp.getD base.depthBiasClamp }

/-- The JS spread `{...defaults, ...depthStencilState}`. -/
def mergeDepthStencilState (base : GPUDepthStencilStateDescriptor)
    (o : Option DepthStencilOverrides) : GPUDepthStencilStateDescriptor :=
  match o with
  | none => base
  | some o =>
    { depthWriteEnabled := o.depthWriteEnabled.getD base.depthWriteEnabled
      depthCompare := o.depthCompare.getD base.depthCompare
      format := o.format.getD base.format
      stencilFront := o.stencilFront.getD base.stencilFront
      stencilBack := o.stencilBack.getD base.stencilBack
      stencilReadMask := o.stencilReadMask.getD base.stencilReadMask
      stencilWriteMask := o.stencilWriteMask.getD base.stencilWriteMask }

/-- JS `x || d` on an optional string (the empty string is falsy). -/
def jsOrString (x : Option String) (d : String) : String :=
  match x with
  | some s => if s = "" then d else s
  | none => d

/-- Association-list lookup standing in for JS object property access on
the `pipelines` / `computePipelines` maps. -/
def lookupAssoc {α : Type} (l : List (String × α)) (k : String) : Option α :=
  match l with
  | [] => none
  | (k', v) :: rest => if k' = k then some v else lookupAssoc rest k

/-- The pipeline `device.createRenderPipeline` builds in `getRenderPipeline`
when both stages are present: caller state merged over the documented
defaults, tagged with the engine's sample count. -/
def compileRenderPipeline (sampleCount : Nat) (swapChainFormat : TextureFormat)
    (d : RenderPipelineDescriptor) : Option GPURenderPipeline :=
  match d.vertexStage, d.fragmentStage with
  | some vs, some fs =>
    some
      { sampleCount := sampleCount
        primitiveTopology := jsOrString d.primitiveTopology "triangle-list"
        rasterizationState :=
          mergeRasterizationState getDefaultRasterizationStateDescriptor d.rasterizationState
        depthStencilState :=
          mergeDepthStencilState getDefaultDepthStencilStateDescriptor d.depthStencilState
        colorStates := d.colorStates.getD (getDefaultColorStateDescriptors swapChainFormat)
        layout := d.layout
        vertexStage := vs
        fragmentStage := fs
        vertexState := d.vertexState }
  | _, _ => none

/-- `IWebGPUEngineOptions` (the fields the orchestration layer reads;
`powerPreference` and `deviceDescriptor` only feed the unmodelled
adapter/device request in `init`). -/
structure IWebGPUEngineOptions where
  swapChainFormat : TextureFormat := TextureFormat.BGRA8Unorm
  antialiasing : Bool := false
  supportCompute : Bool := false
deriving DecidableEq, Repr

/-- `WebGPUConstants.BufferUsage` flags used by the engine. -/
def BufferUsageCopySrc : Nat := 4
def BufferUsageCopyDst : Nat := 8
def BufferUsageVertex : Nat := 32
def BufferUsageUniform : Nat := 64

/-- A `GPUBuffer`: id minted at creation, size and usage from the
descriptor, contents written while mapped. -/
structure GPUBuffer where
  id : Nat
  size : Nat
  usage : Nat
  contents : List Nat
deriving DecidableEq, Repr

/-- An `GPUExtent3D`. -/
structure Extent3D where
  width : Nat
  height : Nat
  depth : Nat
deriving DecidableEq, Repr

/-- A `GPUTexture` as created by `device.createTexture`. -/
structure GPUTexture where
  id : Nat
  extent : Extent3D
  sampleCount : Nat
  format : TextureFormat
deriving DecidableEq, Repr

/-- A texture view: either a view of an engine-created texture or the
`n`-th fresh image handed out by `swapChain.getCurrentTexture()`. -/
inductive TextureView where
  | ofTexture (id : Nat)
  | swapChain (n : Nat)
deriving DecidableEq, Repr

/-- Load value of a color attachment: a clear color or `LoadOp.Load`. -/
inductive ColorLoadValue where
  | clear (c : GPUColor)
  | load
deriving DecidableEq, Repr

/-- Load value of a depth or stencil attachment. -/
inductive NumLoadValue where
  | clearVal (v : Nat)
  | load
deriving DecidableEq, Repr

/-- `GPURenderPassColorAttachmentDescriptor`. -/
structure ColorAttachment where
  attachment : TextureView
  resolveTarget : Option TextureView := none
  loadValue : ColorLoadValue
  storeOp : String
deriving DecidableEq, Repr

/-- `GPURenderPassDepthStencilAttachmentDescriptor`. -/
structure DepthAttachment where
  attachment : TextureView
  depthLoadValue : NumLoadValue
  depthStoreOp : String
  stencilLoadValue : NumLoadValue
  stencilStoreOp : String
deriving DecidableEq, Repr

/-- Commands that can be recorded either into a render bundle or into the
live render pass (the `this.bundleEncoder || this.currentRenderPass!`
routing of the source). -/
inductive RenderCommand where
  | setPipeline (p : GPURenderPipeline)
  | drawIndexed (indexCount instancesCount indexStart baseVertex firstInstance : Nat)
  | draw (verticesCount instancesCount verticesStart firstInstance : Nat)
  | setBindGroup (slot : Nat) (group : Nat)
  | setIndexBuffer (buffer : Nat) (offset : Nat)
  | setVertexBuffer (slot : Nat) (buffer : Nat) (offset : Nat)
deriving DecidableEq, Repr

/-- A finished `GPURenderBundle` (also serves as the recording state of
the `GPURenderBundleEncoder`, whose `finish` just seals the commands). -/
structure GPURenderBundle where
  colorFormats : List TextureFormat
  depthStencilFormat : TextureFormat
  sampleCount : Nat
  commands : List RenderCommand
deriving DecidableEq, Repr

/-- Commands recorded on a live render-pass encoder. -/
inductive PassCommand where
  | render (c : RenderCommand)
  | setScissorRect (x y w h : Nat)
  | executeBundles (bs : List GPURenderBundle)
deriving DecidableEq, Repr

/-- Commands recorded on a compute-pass encoder. -/
inductive ComputeCommand where
  | setPipeline (p : GPUComputePipeline)
  | setBindGroup (slot : Nat) (group : Nat)
  | dispatch (num : Nat)
deriving DecidableEq, Repr

/-- Descriptor a render pass was begun with. -/
structure RenderPassDescriptor where
  colorAttachments : List ColorAttachment
  depthStencilAttachment : Option DepthAttachment
deriving DecidableEq, Repr

/-- The state of an open `GPURenderPassEncoder`. -/
structure RenderPassState where
  descriptor : RenderPassDescriptor
  commands : List PassCommand
deriving DecidableEq, Repr

/-- The state of an open `GPUComputePassEncoder`. -/
structure ComputePassState where
  commands : List ComputeCommand
deriving DecidableEq, Repr

/-- Top-level commands recorded on a `GPUCommandEncoder`; an ended pass
contributes its whole recording to the owning encoder. -/
inductive EncoderCommand where
  | copyBufferToBuffer (src : Nat) (srcOffset : Nat) (dst : Nat) (dstOffset : Nat) (size : Nat)
  | renderPass (desc : RenderPassDescriptor) (commands : List PassCommand)
  | computePass (commands : List ComputeCommand)
deriving DecidableEq, Repr

/-- A finished `GPUCommandBuffer` (`encoder.finish()`): the encoder's
label plus everything it recorded. -/
structure GPUCommandBuffer where
  label : String
  commands : List EncoderCommand
deriving DecidableEq, Repr

/-- Observable device events, in program order: buffer/texture
destruction, queue submission, pass begin/end. -/
inductive Event where
  | destroyBuffer (id : Nat)
  | destroyTexture (id : Nat)
  | submit (buffers : List GPUCommandBuffer)
  | renderPassBegun
  | renderPassEnded
  | computePassBegun
  | computePassEnded
deriving DecidableEq, Repr

/-- A runtime exception escaping a method (the source's `!` null
assertions do not guard the actual member calls, so calling a method on a
null pass/bundle target throws). -/
inductive EngineError where
  | nullAccess
deriving DecidableEq, Repr

/-- The mutable state of a `WebGPUEngine` instance. -/
structure Engine where
  options : IWebGPUEngineOptions
  canvasWidth : Nat
  canvasHeight : Nat
  mainPassSampleCount : Nat
  pipelines : List (String × GPURenderPipeline)
  computePipelines : List (String × GPUComputePipeline)
  uploadEncoder : List EncoderCommand
  renderEncoder : List EncoderCommand
  computeEncoder : List EncoderCommand
  commandBuffers : Option GPUCommandBuffer × Option GPUCommandBuffer × Option GPUCommandBuffer
  currentRenderPass : Option RenderPassState
  currentComputePass : Option ComputePassState
  bundleEncoder : Option GPURenderBundle
  tempBuffers : List GPUBuffer
  mainColorAttachments : List ColorAttachment
  mainDepthAttachment : Option DepthAttachment
  mainTexture : Option GPUTexture
  depthTexture : Option GPUTexture
  mainTextureExtends : Extent3D
  nextId : Nat
  swapCounter : Nat
  events : List Event
deriving DecidableEq, Repr

namespace WebGPUEngine

/-- The constructor: stores the canvas and options and fixes
`mainPassSampleCount` (4 when antialiasing, else 1); everything else is
the pristine field state of a fresh instance. -/
def create (canvasWidth canvasHeight : Nat) (options : IWebGPUEngineOptions) : Engine :=
  { options := options
    canvasWidth := canvasWidth
    canvasHeight := canvasHeight
    mainPassSampleCount := if options.antialiasing then 4 else 1
    pipelines := []
    computePipelines := []
    uploadEncoder := []
    renderEncoder := []
    computeEncoder := []
    commandBuffers := (none, none, none)
    currentRenderPass := none
    currentComputePass := none
    bundleEncoder := none
    tempBuffers := []
    mainColorAttachments := []
    mainDepthAttachment := none
    mainTexture := none
    depthTexture := none
    mainTextureExtends := ⟨0, 0, 0⟩
    nextId := 0
    swapCounter := 0
    events := [] }

/-- `beginFrame`: recreates the three command encoders. -/
def beginFrame (s : Engine) : Engine :=
  { s with uploadEncoder := [], renderEncoder := [], computeEncoder := [] }

/-- `endRenderPass`: no-op when no render pass is open; otherwise ends the
pass (its recording lands on the render encoder) and clears the field. -/
def endRenderPass (s : Engine) : Engine :=
  match s.currentRenderPass with
  | none => s
  | some p =>
    { s with
      renderEncoder := s.renderEncoder ++ [EncoderCommand.renderPass p.descriptor p.commands]
      currentRenderPass := none
      events := s.events ++ [Event.renderPassEnded] }

/-- `endComputePass`: no-op when no compute pass is open. -/
def endComputePass (s : Engine) : Engine :=
  match s.currentComputePass with
  | none => s
  | some p =>
    { s with
      computeEncoder := s.computeEncoder ++ [EncoderCommand.computePass p.commands]
      currentComputePass := none
      events := s.events ++ [Event.computePassEnded] }

/-- `endFrame`: closes the render pass (and the compute pass when compute
support is enabled), finishes the three encoders into the fixed slots
upload=0 / render=1 / compute=2, submits the three-element array as one
batch, then destroys and clears the deferred staging buffers. -/
def endFrame (s : Engine) : Engine :=
  let s1 := endRenderPass s
  let s2 := if s1.options.supportCompute then endComputePass s1 else s1
  let cb0 : GPUCommandBuffer := ⟨"upload", s2.uploadEncoder⟩
  let cb1 : GPUCommandBuffer := ⟨"render", s2.renderEncoder⟩
  let cb2 : GPUCommandBuffer := ⟨"compute", s2.computeEncoder⟩
  { s2 with
    commandBuffers := (some cb0, some cb1, some cb2)
    tempBuffers := []
    events := s2.events ++ [Event.submit [cb0, cb1, cb2]]
      ++ s2.tempBuffers.map (fun b => Event.destroyBuffer b.id) }

/-- `startRecordBundle`: opens a bundle encoder with a hardcoded
`BGRA8Unorm` color format, `Depth24PlusStencil8` depth-stencil format and
the engine's sample count. -/
def startRecordBundle (s : Engine) : Engine :=
  { s with
    bundleEncoder := some
      { colorFormats := [TextureFormat.BGRA8Unorm]
        depthStencilFormat := TextureFormat.Depth24PlusStencil8
        sampleCount := s.mainPassSampleCount
        commands := [] } }

/-- `stopRecordBundle`: `this.bundleEncoder!.finish()` — throws when no
bundle is open; otherwise returns the sealed bundle and clears the field. -/
def stopRecordBundle (s : Engine) : Except EngineError (GPURenderBundle × Engine) :=
  match s.bundleEncoder with
  | none => Except.error EngineError.nullAccess
  | some b => Except.ok (b, { s with bundleEncoder := none })

/-- A helper for mutating `this.mainColorAttachments[0]` (present as a
one-element array once `initMainAttachments` has run). -/
def updateHead {α : Type} (l : List α) (f : α → α) : List α :=
  match l with
  | [] => []
  | a :: rest => f a :: rest

/-- `initMainAttachments`: recomputes the extent from the canvas's current
size; when antialiasing, destroys and recreates the offscreen multisampled
color texture; always destroys and recreates the depth texture; rebuilds
both attachment descriptors. -/
def initMainAttachments (s : Engine) : Engine :=
  let extent : Extent3D := ⟨s.canvasWidth, s.canvasHeight, 1⟩
  let s0 := { s with mainTextureExtends := extent }
  let s1 :=
    if s0.options.antialiasing then
      let s0a :=
        match s0.mainTexture with
        | some t => { s0 with events := s0.events ++ [Event.destroyTexture t.id] }
        | none => s0
      let tex : GPUTexture :=
        { id := s0a.nextId
          extent := extent
          sampleCount := s0a.mainPassSampleCount
          format := TextureFormat.BGRA8Unorm }
      { s0a with
        nextId := s0a.nextId + 1
        mainTexture := some tex
        mainColorAttachments :=
          [{ attachment := TextureView.ofTexture tex.id
             resolveTarget := none
             loadValue := ColorLoadValue.clear ⟨0, 0, 0, 1⟩
             storeOp := "store" }] }
    else
      { s0 with
        swapCounter := s0.swapCounter + 1
        mainColorAttachments :=
          [{ attachment := TextureView.swapChain s0.swapCounter
             resolveTarget := none
             loadValue := ColorLoadValue.clear ⟨0, 0, 0, 1⟩
             storeOp := "store" }] }
  let s2 :=
    match s1.depthTexture with
    | some t => { s1 with events := s1.events ++ [Event.destroyTexture t.id] }
    | none => s1
  let depthTex : GPUTexture :=
    { id := s2.nextId
      extent := extent
      sampleCount := s2.mainPassSampleCount
      format := TextureFormat.Depth24PlusStencil8 }
  { s2 with
    nextId := s2.nextId + 1
    depthTexture := some depthTex
    mainDepthAttachment := some
      { attachment := TextureView.ofTexture depthTex.id
        depthLoadValue := NumLoadValue.clearVal 1
        depthStoreOp := "store"
        stencilLoadValue := NumLoadValue.clearVal 0
        stencilStoreOp := "store" } }

/-- `setSize(width, height)`: the arguments are unused by the source; it
just reruns `initMainAttachments`. -/
def setSize (s : Engine) (width height : Nat) : Engine :=
  initMainAttachments s

/-- `startMainRenderPass`: closes an already-open pass first, captures a
fresh swap-chain image (as resolve target when antialiasing, else as the
color attachment), then begins a pass on the render encoder. -/
def startMainRenderPass (s : Engine) : Engine :=
  let s1 := if s.currentRenderPass.isSome then endRenderPass s else s
  let freshView : TextureView := TextureView.swapChain s1.swapCounter
  let s2 :=
    { s1 with
      swapCounter := s1.swapCounter + 1
      mainColorAttachments :=
        updateHead s1.mainColorAttachments (fun a =>
          if s1.options.antialiasing then { a with resolveTarget := some freshView }
          else { a with attachment := freshView }) }
  { s2 with
    currentRenderPass := some
      { descriptor :=
          { colorAttachments := s2.mainColorAttachments
            depthStencilAttachment := s2.mainDepthAttachment }
        commands := [] }
    events := s2.events ++ [Event.renderPassBegun] }

/-- `startComputePass`: closes an already-open compute pass first, then
begins a pass on the compute encoder. -/
def startComputePass (s : Engine) : Engine :=
  let s1 := if s.currentComputePass.isSome then endComputePass s else s
  { s1 with
    currentComputePass := some { commands := [] }
    events := s1.events ++ [Event.computePassBegun] }

/-- `clear(color, backBuffer, depth, stencil)`: rewrites the attachment
load values, then starts the main render pass (and, with compute support,
the compute pass). -/
def clear (s : Engine) (color : GPUColor) (backBuffer depth : Bool)
    (stencil : Bool := false) : Engine :=
  let s1 :=
    { s with
      mainColorAttachments :=
        updateHead s.mainColorAttachments (fun a =>
          { a with loadValue := if backBuffer then ColorLoadValue.clear color
                                else ColorLoadValue.load })
      mainDepthAttachment := s.mainDepthAttachment.map (fun d =>
        { d with
          depthLoadValue := if depth then NumLoadValue.clearVal 1 else NumLoadValue.load
          stencilLoadValue := if stencil then NumLoadValue.clearVal 0
                              else NumLoadValue.load }) }
  let s2 := startMainRenderPass s1
  if s2.options.supportCompute then startComputePass s2 else s2

/-- `getRenderPipeline(name, descriptor)`: returns the cached pipeline
for `name` unconditionally when present; otherwise compiles and caches
one when both stages are present, and returns null (inserting nothing)
when either stage is missing.  Returns the pipeline and the new state. -/
def getRenderPipeline (s : Engine) (name : String)
    (descriptor : RenderPipelineDescriptor) : Option GPURenderPipeline × Engine :=
  match lookupAssoc s.pipelines name with
  | some p => (some p, s)
  | none =>
    match compileRenderPipeline s.mainPassSampleCount s.options.swapChainFormat descriptor with
    | some p => (some p, { s with pipelines := s.pipelines ++ [(name, p)] })
    | none => (none, s)

/-- Record one command into the active target: the bundle encoder when a
bundle is open, else the live render pass; with neither, the member call
on the null target throws. -/
def recordRenderCommand (s : Engine) (c : RenderCommand) : Engine × Option EngineError :=
  match s.bundleEncoder with
  | some b =>
    ({ s with bundleEncoder := some { b with commands := b.commands ++ [c] } }, none)
  | none =>
    match s.currentRenderPass with
    | some p =>
      ({ s with currentRenderPass := some { p with commands := p.commands ++ [PassCommand.render c] } },
        none)
    | none => (s, some EngineError.nullAccess)

/-- `setRenderPipeline`: resolves-or-compiles the named pipeline and binds
it on the active target when found; a missing pipeline skips the bind. -/
def setRenderPipeline (s : Engine) (name : String)
    (descriptor : RenderPipelineDescriptor) : Engine × Option EngineError :=
  match getRenderPipeline s name descriptor with
  | (some p, s1) => recordRenderCommand s1 (RenderCommand.setPipeline p)
  | (none, s1) => (s1, none)

/-- `drawElementsType`: binds the pipeline (via `setRenderPipeline`), then
records `drawIndexed` on the active target. -/
def drawElementsType (s : Engine) (name : String)
    (descriptor : RenderPipelineDescriptor)
    (indexStart indexCount : Nat) (instancesCount : Nat := 1) :
    Engine × Option EngineError :=
  match setRenderPipeline s name descriptor with
  | (s1, some e) => (s1, some e)
  | (s1, none) =>
    recordRenderCommand s1 (RenderCommand.drawIndexed indexCount instancesCount indexStart 0 0)

/-- `drawArraysType`: binds the pipeline, then records `draw`. -/
def drawArraysType (s : Engine) (name : String)
    (descriptor : RenderPipelineDescriptor)
    (verticesStart verticesCount : Nat) (instancesCount : Nat := 1) :
    Engine × Option EngineError :=
  match setRenderPipeline s name descriptor with
  | (s1, some e) => (s1, some e)
  | (s1, none) =>
    recordRenderCommand s1 (RenderCommand.draw verticesCount instancesCount verticesStart 0)

/-- The loop body of `setRenderBindGroups`: binds groups at slots
`i, i+1, ...` on the active target. -/
def recordBindGroups (s : Engine) (i : Nat) (groups : List Nat) :
    Engine × Option EngineError :=
  match groups with
  | [] => (s, none)
  | g :: rest =>
    match recordRenderCommand s (RenderCommand.setBindGroup i g) with
    | (s1, none) => recordBindGroups s1 (i + 1) rest
    | (s1, some e) => (s1, some e)

/-- `setRenderBindGroups`: binds an ordered list of bind groups at slots
starting from 0 on the bundle or live pass. -/
def setRenderBindGroups (s : Engine) (groups : List Nat) : Engine × Option EngineError :=
  recordBindGroups s 0 groups

/-- `setComputeBindGroups`: guarded by `if (this.currentComputePass)`, so
it never throws; binds groups at increasing slots on the compute pass. -/
def setComputeBindGroups (s : Engine) (groups : List Nat) : Engine :=
  match s.currentComputePass with
  | none => s
  | some p =>
    { s with
      currentComputePass := some
        { p with commands := p.commands ++
            (groups.enum.map fun gi => ComputeCommand.setBindGroup gi.1 gi.2) } }

/-- `setComputePipeline`: compiles and caches the descriptor under the
name when absent (later descriptors for the same name are ignored), then
binds the cached pipeline when a compute pass is open (`?.` guard). -/
def setComputePipeline (s : Engine) (computePipelineName : String)
    (descriptor : GPUComputePipelineDescriptor) : Engine :=
  let s1 :=
    match lookupAssoc s.computePipelines computePipelineName with
    | some _ => s
    | none =>
      { s with computePipelines :=
          s.computePipelines ++ [(computePipelineName, GPUComputePipeline.mk descriptor)] }
  match lookupAssoc s1.computePipelines computePipelineName, s1.currentComputePass with
  | some p, some pass =>
    { s1 with
      currentComputePass := some
        { pass with commands := pass.commands ++ [ComputeCommand.setPipeline p] } }
  | _, _ => s1

/-- `setSubData`: creates a mapped staging buffer sized to exactly the
source's byte length, copies the caller bytes in, records a
buffer-to-buffer copy on the upload encoder, and registers the staging
buffer for deferred destruction (never destroying it synchronously). -/
def setSubData (s : Engine) (destBuffer : GPUBuffer) (destOffset : Nat)
    (srcArrayBuffer : List Nat) : Engine :=
  let byteCount := srcArrayBuffer.length
  let srcBuffer : GPUBuffer :=
    { id := s.nextId
      size := byteCount
      usage := BufferUsageCopySrc
      contents := srcArrayBuffer }
  { s with
    nextId := s.nextId + 1
    uploadEncoder := s.uploadEncoder ++
      [EncoderCommand.copyBufferToBuffer srcBuffer.id 0 destBuffer.id destOffset byteCount]
    tempBuffers := s.tempBuffers ++ [srcBuffer] }

/-- `createBuffer`: sizes the destination to
`view.byteLength + view.byteLength % 4`, creates it, and uploads the
bytes through `setSubData`. -/
def createBuffer (s : Engine) (view : List Nat) (flags : Nat) : GPUBuffer × Engine :=
  let padding := view.length % 4
  let buffer : GPUBuffer :=
    { id := s.nextId
      size := view.length + padding
      usage := flags
      contents := [] }
  let s1 := { s with nextId := s.nextId + 1 }
  (buffer, setSubData s1 buffer 0 view)

/-- `createVertexBuffer` (the `ArrayBufferView` branch: the model carries
raw bytes, so the typed-array conversions of the source collapse). -/
def createVertexBuffer (s : Engine) (data : List Nat) (usage : Nat := 0) :
    GPUBuffer × Engine :=
  createBuffer s data (BufferUsageVertex ||| BufferUsageCopyDst ||| usage)

/-- `createUniformBuffer`. -/
def createUniformBuffer (s : Engine) (data : List Nat) : GPUBuffer × Engine :=
  createBuffer s data (BufferUsageUniform ||| BufferUsageCopyDst)

/-- `dispatch(num)`: records on the compute pass only when one is open;
otherwise does nothing at all. -/
def dispatch (s : Engine) (num : Nat) : Engine :=
  match s.currentComputePass with
  | some p =>
    { s with
      currentComputePass := some
        { p with commands := p.commands ++ [ComputeCommand.dispatch num] } }
  | none => s

/-- The argument record of `bindVertexInputs`; a `none` entry in
`vertexBuffers` is a hole (`if (buf)` skips it). -/
structure VertexInputs where
  indexBuffer : Option Nat
  indexOffset : Nat
  vertexStartSlot : Nat
  vertexBuffers : List (Option Nat)
  vertexOffsets : List Nat
deriving DecidableEq, Repr

/-- The vertex-buffer loop of `bindVertexInputs`. -/
def bindVertexBuffersLoop (s : Engine) (startSlot : Nat) (i : Nat)
    (bufs : List (Option Nat)) (offsets : List Nat) : Engine × Option EngineError :=
  match bufs with
  | [] => (s, none)
  | none :: rest => bindVertexBuffersLoop s startSlot (i + 1) rest offsets
  | some b :: rest =>
    match recordRenderCommand s
        (RenderCommand.setVertexBuffer (startSlot + i) b (offsets.getD i 0)) with
    | (s1, none) => bindVertexBuffersLoop s1 startSlot (i + 1) rest offsets
    | (s1, some e) => (s1, some e)

/-- `bindVertexInputs`: optionally binds an index buffer, then the
non-hole vertex buffers at consecutive slots, on the bundle or live pass. -/
def bindVertexInputs (s : Engine) (vi : VertexInputs) : Engine × Option EngineError :=
  let step1 :=
    match vi.indexBuffer with
    | some b => recordRenderCommand s (RenderCommand.setIndexBuffer b vi.indexOffset)
    | none => (s, none)
  match step1 with
  | (s1, none) => bindVertexBuffersLoop s1 vi.vertexStartSlot 0 vi.vertexBuffers vi.vertexOffsets
  | (s1, some e) => (s1, some e)

/-- `executeBundles`: opens the main render pass when none is open, then
replays the bundles into it (`?.` guard, so no throw). -/
def executeBundles (s : Engine) (bundles : List GPURenderBundle) : Engine :=
  let s1 := if s.currentRenderPass.isNone then startMainRenderPass s else s
  match s1.currentRenderPass with
  | some p =>
    { s1 with
      currentRenderPass := some
        { p with commands := p.commands ++ [PassCommand.executeBundles bundles] } }
  | none => s1

/-- `enableScissor`: opens the main render pass when none is open, then
sets the scissor rectangle on it. -/
def enableScissor (s : Engine) (x y width height : Nat) : Engine :=
  let s1 := if s.currentRenderPass.isNone then startMainRenderPass s else s
  match s1.currentRenderPass with
  | some p =>
    { s1 with
      currentRenderPass := some
        { p with commands := p.commands ++ [PassCommand.setScissorRect x y width height] } }
  | none => s1

/-- `disableScissor`: opens the main render pass when none is open, then
resets the scissor rectangle to the full canvas. -/
def disableScissor (s : Engine) : Engine :=
  let s1 := if s.currentRenderPass.isNone then startMainRenderPass s else s
  match s1.currentRenderPass with
  | some p =>
    { s1 with
      currentRenderPass := some
        { p with commands := p.commands ++
            [PassCommand.setScissorRect 0 0 s1.canvasWidth s1.canvasHeight] } }
  | none => s1

end WebGPUEngine

/-- A public engine call that an application can issue between
`beginFrame` and `endFrame` (the Command Surface plus the frame-scoped
resource and pass operations). -/
inductive Op where
  | setSubData (destBuffer : GPUBuffer) (destOffset : Nat) (src : List Nat)
  | createVertexBuffer (data : List Nat) (usage : Nat)
  | createUniformBuffer (data : List Nat)
  | clear (color : GPUColor) (backBuffer depth stencil : Bool)
  | drawElementsType (name : String) (d : RenderPipelineDescriptor)
      (indexStart indexCount instancesCount : Nat)
  | drawArraysType (name : String) (d : RenderPipelineDescriptor)
      (verticesStart verticesCount instancesCount : Nat)
  | dispatch (num : Nat)
  | setComputePipeline (name : String) (d : GPUComputePipelineDescriptor)
  | setRenderBindGroups (groups : List Nat)
  | setComputeBindGroups (groups : List Nat)
  | bindVertexInputs (vi : WebGPUEngine.VertexInputs)
  | enableScissor (x y w h : Nat)
  | disableScissor
  | startRecordBundle
  | stopRecordBundle
  | executeBundles (bs : List GPURenderBundle)
  | setSize (w h : Nat)
deriving DecidableEq, Repr

/-- Run one public call; the second component reports an exception
escaping the call (the state keeps every mutation made before the throw). -/
def step (op : Op) (s : Engine) : Engine × Option EngineError :=
  match op with
  | Op.setSubData b o src => (WebGPUEngine.setSubData s b o src, none)
  | Op.createVertexBuffer data usage => ((WebGPUEngine.createVertexBuffer s data usage).2, none)
  | Op.createUniformBuffer data => ((WebGPUEngine.createUniformBuffer s data).2, none)
  | Op.clear c bb d st => (WebGPUEngine.clear s c bb d st, none)
  | Op.drawElementsType n d a b c => WebGPUEngine.drawElementsType s n d a b c
  | Op.drawArraysType n d a b c => WebGPUEngine.drawArraysType s n d a b c
  | Op.dispatch n => (WebGPUEngine.dispatch s n, none)
  | Op.setComputePipeline n d => (WebGPUEngine.setComputePipeline s n d, none)
  | Op.setRenderBindGroups gs => WebGPUEngine.setRenderBindGroups s gs
  | Op.setComputeBindGroups gs => (WebGPUEngine.setComputeBindGroups s gs, none)
  | Op.bindVertexInputs vi => WebGPUEngine.bindVertexInputs s vi
  | Op.enableScissor x y w h => (WebGPUEngine.enableScissor s x y w h, none)
  | Op.disableScissor => (WebGPUEngine.disableScissor s, none)
  | Op.startRecordBundle => (WebGPUEngine.startRecordBundle s, none)
  | Op.stopRecordBundle =>
    match WebGPUEngine.stopRecordBundle s with
    | Except.ok (_, s1) => (s1, none)
    | Except.error e => (s, some e)
  | Op.executeBundles bs => (WebGPUEngine.executeBundles s bs, none)
  | Op.setSize w h => (WebGPUEngine.setSize s w h, none)

/-- Run a sequence of calls; an escaping exception aborts the rest of the
sequence (it would propagate to the application). -/
def runOps : List Op → Engine → Engine × Option EngineError
  | [], s => (s, none)
  | op :: rest, s =>
    match step op s with
    | (s1, none) => runOps rest s1
    | (s1, some e) => (s1, some e)

/-- The buffer ids destroyed in a trace, in order. -/
def destroyedBuffers (l : List Event) : List Nat :=
  l.filterMap fun e =>
    match e with
    | Event.destroyBuffer i => some i
    | _ => none

/-- The queue submissions in a trace, in order. -/
def submittedBatches (l : List Event) : List (List GPUCommandBuffer) :=
  l.filterMap fun e =>
    match e with
    | Event.submit bs => some bs
    | _ => none

/-- The commands recorded so far on the open render pass (empty when no
pass is open); observation helper for the draw-routing properties. -/
def renderPassCommands (s : Engine) : List PassCommand :=
  match s.currentRenderPass with
  | some p => p.commands
  | none => []

/-- A concrete engine: 800x600 canvas, RGBA8 swap format (deliberately
not BGRA8), no antialiasing, no compute support. -/
def sampleEngine : Engine :=
  WebGPUEngine.create 800 600
    { swapChainFormat := TextureFormat.RGBA8Unorm
      antialiasing := false
      supportCompute := false }

/-- The sample engine after attachment setup, `beginFrame` and an
explicit `startMainRenderPass`: a state with the main pass open. -/
def sampleEngineWithPass : Engine :=
  WebGPUEngine.startMainRenderPass
    (WebGPUEngine.beginFrame (WebGPUEngine.initMainAttachments sampleEngine))

/-- The sample engine with a bundle recording open on top of the open
render pass. -/
def sampleEngineWithBundle : Engine :=
  WebGPUEngine.startRecordBundle sampleEngineWithPass

/-- An engine configured with antialiasing and compute support. -/
def sampleEngineAA : Engine :=
  WebGPUEngine.create 640 480
    { swapChainFormat := TextureFormat.BGRA8Unorm
      antialiasing := true
      supportCompute := true }

/-- A pre-existing destination buffer for upload calls. -/
def sampleDestBuffer : GPUBuffer :=
  { id := 1000, size := 8, usage := BufferUsageCopyDst, contents := [] }

/-- A pipeline descriptor with a vertex stage but no fragment stage. -/
def descNoFragment : RenderPipelineDescriptor :=
  { vertexStage := some ⟨1, "main"⟩ }

/-- A complete pipeline descriptor. -/
def descComplete1 : RenderPipelineDescriptor :=
  { vertexStage := some ⟨1, "main"⟩, fragmentStage := some ⟨2, "main"⟩ }

/-- A second, different complete pipeline descriptor. -/
def descComplete2 : RenderPipelineDescriptor :=
  { vertexStage := some ⟨3, "main"⟩
    fragmentStage := some ⟨4, "main"⟩
    primitiveTopology := some "line-list" }

/-- A compute pipeline descriptor. -/
def computeDescA : GPUComputePipelineDescriptor := { computeStage := ⟨5, "main"⟩ }

/-- A second, different compute pipeline descriptor. -/
def computeDescB : GPUComputePipelineDescriptor := { computeStage := ⟨6, "main"⟩ }

/-! ### Helper lemmas about the event trace -/

theorem destroyedBuffers_append (a b : List Event) :
    destroyedBuffers (a ++ b) = destroyedBuffers a ++ destroyedBuffers b := by
  simp [destroyedBuffers]

theorem submittedBatches_append (a b : List Event) :
    submittedBatches (a ++ b) = submittedBatches a ++ submittedBatches b := by
  simp [submittedBatches]

theorem destroyedBuffers_map_destroy (bs : List GPUBuffer) :
    destroyedBuffers (bs.map fun b => Event.destroyBuffer b.id) = bs.map GPUBuffer.id := by
  induction bs with
  | nil => rfl
  | cons b rest ih => simp only [List.map_cons, destroyedBuffers, List.filterMap_cons] at ih ⊢; simp [ih]

theorem submittedBatches_map_destroy (bs : List GPUBuffer) :
    submittedBatches (bs.map fun b => Event.destroyBuffer b.id) = [] := by
  induction bs with
  | nil => rfl
  | cons b rest ih => simp [submittedBatches]

namespace WebGPUEngine

theorem endRenderPass_events (s : Engine) :
    (endRenderPass s).events = s.events
    ∨ (endRenderPass s).events = s.events ++ [Event.renderPassEnded] := by
  unfold endRenderPass
  split
  · exact Or.inl rfl
  · exact Or.inr rfl

theorem endRenderPass_tempBuffers (s : Engine) :
    (endRenderPass s).tempBuffers = s.tempBuffers := by
  unfold endRenderPass; split <;> rfl

theorem endComputePass_events (s : Engine) :
    (endComputePass s).events = s.events
    ∨ (endComputePass s).events = s.events ++ [Event.computePassEnded] := by
  unfold endComputePass
  split
  · exact Or.inl rfl
  · exact Or.inr rfl

theorem endComputePass_tempBuffers (s : Engine) :
    (endComputePass s).tempBuffers = s.tempBuffers := by
  unfold endComputePass; split <;> rfl

theorem endRenderPass_uploadEncoder (s : Engine) :
    (endRenderPass s).uploadEncoder = s.uploadEncoder := by
  unfold endRenderPass; split <;> rfl

theorem endComputePass_uploadEncoder (s : Engine) :
    (endComputePass s).uploadEncoder = s.uploadEncoder := by
  unfold endComputePass; split <;> rfl

theorem setSubData_events (s : Engine) (b : GPUBuffer) (o : Nat) (src : List Nat) :
    (setSubData s b o src).events = s.events := rfl

theorem createBuffer_events (s : Engine) (v : List Nat) (f : Nat) :
    ((createBuffer s v f).2).events = s.events := rfl

theorem getRenderPipeline_events (s : Engine) (n : String) (d : RenderPipelineDescriptor) :
    ((getRenderPipeline s n d).2).events = s.events := by
  unfold getRenderPipeline; split <;> first | rfl | (split <;> rfl)

theorem recordRenderCommand_events (s : Engine) (c : RenderCommand) :
    ((recordRenderCommand s c).1).events = s.events := by
  unfold recordRenderCommand; split <;> first | rfl | (split <;> rfl)

theorem setRenderPipeline_events (s : Engine) (n : String) (d : RenderPipelineDescriptor) :
    ((setRenderPipeline s n d).1).events = s.events := by
  unfold setRenderPipeline
  split
  all_goals rename_i h
  · rw [recordRenderCommand_events]
    have := getRenderPipeline_events s n d
    rw [h] at this
    exact this
  · have := getRenderPipeline_events s n d
    rw [h] at this
    exact this

theorem drawElementsType_events (s : Engine) (n : String) (d : RenderPipelineDescriptor)
    (a b c : Nat) : ((drawElementsType s n d a b c).1).events = s.events := by
  unfold drawElementsType
  split
  all_goals rename_i h
  · have := setRenderPipeline_events s n d
    rw [h] at this
    exact this
  · rw [recordRenderCommand_events]
    have := setRenderPipeline_events s n d
    rw [h] at this
    exact this

theorem drawArraysType_events (s : Engine) (n : String) (d : RenderPipelineDescriptor)
    (a b c : Nat) : ((drawArraysType s n d a b c).1).events = s.events := by
  unfold drawArraysType
  split
  all_goals rename_i h
  · have := setRenderPipeline_events s n d
    rw [h] at this
    exact this
  · rw [recordRenderCommand_events]
    have := setRenderPipeline_events s n d
    rw [h] at this
    exact this

theorem recordBindGroups_events (groups : List Nat) : ∀ (s : Engine) (i : Nat),
    ((recordBindGroups s i groups).1).events = s.events := by
  induction groups with
  | nil => intro s i; rfl
  | cons g rest ih =>
    intro s i
    unfold recordBindGroups
    split
    all_goals rename_i h
    · rw [ih]
      have := recordRenderCommand_events s (RenderCommand.setBindGroup i g)
      rw [h] at this
      exact this
    · have := recordRenderCommand_events s (RenderCommand.setBindGroup i g)
      rw [h] at this
      exact this

theorem bindVertexBuffersLoop_events (bufs : List (Option Nat)) :
    ∀ (s : Engine) (startSlot i : Nat) (offsets : List Nat),
    ((bindVertexBuffersLoop s startSlot i bufs offsets).1).events = s.events := by
  induction bufs with
  | nil => intro s s0 i o; rfl
  | cons b rest ih =>
    intro s s0 i o
    match b with
    | none => exact ih s s0 (i + 1) o
    | some bId =>
      unfold bindVertexBuffersLoop
      split
      all_goals rename_i h
      · rw [ih]
        have := recordRenderCommand_events s (RenderCommand.setVertexBuffer (s0 + i) bId (o.getD i 0))
        rw [h] at this
        exact this
      · have := recordRenderCommand_events s (RenderCommand.setVertexBuffer (s0 + i) bId (o.getD i 0))
        rw [h] at this
        exact this

theorem bindVertexInputs_events (s : Engine) (vi : VertexInputs) :
    ((bindVertexInputs s vi).1).events = s.events := by
  unfold bindVertexInputs
  cases hib : vi.indexBuffer with
  | none => simp only [hib, bindVertexBuffersLoop_events]
  | some b =>
    simp only [hib]
    split
    all_goals rename_i h
    · rw [bindVertexBuffersLoop_events]
      have := recordRenderCommand_events s (RenderCommand.setIndexBuffer b vi.indexOffset)
      rw [h] at this
      exact this
    · have := recordRenderCommand_events s (RenderCommand.setIndexBuffer b vi.indexOffset)
      rw [h] at this
      exact this

theorem setComputeBindGroups_events (s : Engine) (gs : List Nat) :
    (setComputeBindGroups s gs).events = s.events := by
  unfold setComputeBindGroups; split <;> rfl

theorem setComputePipeline_events (s : Engine) (n : String)
    (d : GPUComputePipelineDescriptor) : (setComputePipeline s n d).events = s.events := by
  unfold setComputePipeline
  dsimp only
  split <;> split <;> rfl

theorem dispatch_events (s : Engine) (n : Nat) : (dispatch s n).events = s.events := by
  unfold dispatch; split <;> rfl

theorem startRecordBundle_events (s : Engine) :
    (startRecordBundle s).events = s.events := rfl

theorem startMainRenderPass_destroyed (s : Engine) :
    destroyedBuffers (startMainRenderPass s).events = destroyedBuffers s.events := by
  unfold startMainRenderPass
  rcases endRenderPass_events s with h | h <;>
    split <;> simp [destroyedBuffers_append, h, destroyedBuffers]

theorem startComputePass_destroyed (s : Engine) :
    destroyedBuffers (startComputePass s).events = destroyedBuffers s.events := by
  unfold startComputePass
  rcases endComputePass_events s with h | h <;>
    split <;> simp [destroyedBuffers_append, h, destroyedBuffers]

theorem ite_startComputePass_destroyed (c : Prop) [Decidable c] (x : Engine) :
    destroyedBuffers (if c then startComputePass x else x).events
      = destroyedBuffers x.events := by
  split
  · rw [startComputePass_destroyed]
  · rfl

theorem clear_destroyed (s : Engine) (c : GPUColor) (bb d st : Bool) :
    destroyedBuffers (clear s c bb d st).events = destroyedBuffers s.events := by
  unfold clear
  dsimp only
  rw [ite_startComputePass_destroyed, startMainRenderPass_destroyed]

theorem initMainAttachments_destroyed (s : Engine) :
    destroyedBuffers (initMainAttachments s).events = destroyedBuffers s.events := by
  unfold initMainAttachments
  by_cases ha : s.options.antialiasing = true <;>
    cases hm : s.mainTexture <;>
    cases hd : s.depthTexture <;>
    simp [ha, hm, hd, destroyedBuffers_append, destroyedBuffers]

theorem setSize_destroyed (s : Engine) (w h : Nat) :
    destroyedBuffers (setSize s w h).events = destroyedBuffers s.events :=
  initMainAttachments_destroyed s

theorem executeBundles_destroyed (s : Engine) (bs : List GPURenderBundle) :
    destroyedBuffers (executeBundles s bs).events = destroyedBuffers s.events := by
  unfold executeBundles
  dsimp only
  split <;> split <;>
    simp [startMainRenderPass_destroyed]

theorem enableScissor_destroyed (s : Engine) (x y w h : Nat) :
    destroyedBuffers (enableScissor s x y w h).events = destroyedBuffers s.events := by
  unfold enableScissor
  dsimp only
  split <;> split <;>
    simp [startMainRenderPass_destroyed]

theorem disableScissor_destroyed (s : Engine) :
    destroyedBuffers (disableScissor s).events = destroyedBuffers s.events := by
  unfold disableScissor
  dsimp only
  split <;> split <;>
    simp [startMainRenderPass_destroyed]

end WebGPUEngine

/-- No public frame operation ever destroys a buffer: buffer destruction
happens only inside `endFrame`, after submission. -/
theorem step_destroyed (op : Op) (s : Engine) :
    destroyedBuffers ((step op s).1).events = destroyedBuffers s.events := by
  cases op with
  | setSubData b o src => rw [step]; rw [WebGPUEngine.setSubData_events]
  | createVertexBuffer data usage => rw [step]; rfl
  | createUniformBuffer data => rw [step]; rfl
  | clear c bb d st => rw [step]; exact WebGPUEngine.clear_destroyed s c bb d st
  | drawElementsType n d a b c => rw [step]; rw [WebGPUEngine.drawElementsType_events]
  | drawArraysType n d a b c => rw [step]; rw [WebGPUEngine.drawArraysType_events]
  | dispatch n => rw [step]; rw [WebGPUEngine.dispatch_events]
  | setComputePipeline n d => rw [step]; rw [WebGPUEngine.setComputePipeline_events]
  | setRenderBindGroups gs =>
    rw [step]
    unfold WebGPUEngine.setRenderBindGroups
    rw [WebGPUEngine.recordBindGroups_events]
  | setComputeBindGroups gs => rw [step]; rw [WebGPUEngine.setComputeBindGroups_events]
  | bindVertexInputs vi => rw [step]; rw [WebGPUEngine.bindVertexInputs_events]
  | enableScissor x y w h => rw [step]; exact WebGPUEngine.enableScissor_destroyed s x y w h
  | disableScissor => rw [step]; exact WebGPUEngine.disableScissor_destroyed s
  | startRecordBundle => rw [step]; rfl
  | stopRecordBundle =>
    rw [step]
    unfold WebGPUEngine.stopRecordBundle
    cases s.bundleEncoder <;> rfl
  | executeBundles bs => rw [step]; exact WebGPUEngine.executeBundles_destroyed s bs
  | setSize w h => rw [step]; exact WebGPUEngine.setSize_destroyed s w h

/-- Running any sequence of public frame operations destroys no buffer. -/
theorem runOps_destroyed (ops : List Op) : ∀ s : Engine,
    destroyedBuffers ((runOps ops s).1).events = destroyedBuffers s.events := by
  induction ops with
  | nil => intro s; rfl
  | cons op rest ih =>
    intro s
    unfold runOps
    cases h : step op s with
    | mk s1 err =>
      have hs1 : destroyedBuffers s1.events = destroyedBuffers s.events := by
        have := step_destroyed op s
        rw [h] at this
        exact this
      cases err with
      | none => rw [ih s1]; exact hs1
      | some e => exact hs1

/-- `runOps` does not touch the deferred staging-buffer registry except to
extend it: helper for the drain property. -/
theorem endFrame_trace (s : Engine) :
    ∃ (pre : List Event) (cbs : List GPUCommandBuffer),
      (WebGPUEngine.endFrame s).events
          = s.events ++ pre ++ [Event.submit cbs]
            ++ s.tempBuffers.map (fun b => Event.destroyBuffer b.id)
        ∧ destroyedBuffers pre = []
        ∧ (WebGPUEngine.endFrame s).tempBuffers = [] := by
  unfold WebGPUEngine.endFrame
  dsimp only
  set s1 := WebGPUEngine.endRenderPass s with hs1
  set s2 := if s1.options.supportCompute = true then WebGPUEngine.endComputePass s1 else s1
    with hs2
  have h1e : ∃ p1, s1.events = s.events ++ p1 ∧ destroyedBuffers p1 = [] := by
    rcases WebGPUEngine.endRenderPass_events s with h | h
    · exact ⟨[], by simp [hs1, h], rfl⟩
    · exact ⟨[Event.renderPassEnded], by rw [hs1, h], rfl⟩
  have h2e : ∃ p2, s2.events = s1.events ++ p2 ∧ destroyedBuffers p2 = [] := by
    rw [hs2]; split
    · rcases WebGPUEngine.endComputePass_events s1 with h | h
      · exact ⟨[], by simp [h], rfl⟩
      · exact ⟨[Event.computePassEnded], by rw [h], rfl⟩
    · exact ⟨[], by simp, rfl⟩
  have htmp : s2.tempBuffers = s.tempBuffers := by
    rw [hs2]; split
    · rw [WebGPUEngine.endComputePass_tempBuffers, hs1,
        WebGPUEngine.endRenderPass_tempBuffers]
    · rw [hs1, WebGPUEngine.endRenderPass_tempBuffers]
  obtain ⟨p1, hp1, hd1⟩ := h1e
  obtain ⟨p2, hp2, hd2⟩ := h2e
  refine ⟨p1 ++ p2,
    [⟨"upload", s2.uploadEncoder⟩, ⟨"render", s2.renderEncoder⟩,
      ⟨"compute", s2.computeEncoder⟩], ?_, ?_, rfl⟩
  · rw [hp2, hp1, htmp]
    simp [List.append_assoc]
  · rw [destroyedBuffers_append, hd1, hd2]
    rfl

/-! ### Claim theorems -/

/-- C1: every `endFrame` finalizes the three command streams into exactly
three command buffers in the fixed slot order upload=0, render=1,
compute=2, and submits that three-element array as one batch to the
queue, regardless of what (possibly nothing) the streams recorded. -/
theorem c1_endFrame_submits_three_buffers_in_fixed_order (s : Engine) :
    ∃ u r c : GPUCommandBuffer,
      submittedBatches (WebGPUEngine.endFrame s).events
          = submittedBatches s.events ++ [[u, r, c]]
        ∧ u.label = "upload" ∧ r.label = "render" ∧ c.label = "compute"
        ∧ (WebGPUEngine.endFrame s).commandBuffers = (some u, some r, some c) := by
  unfold WebGPUEngine.endFrame
  dsimp only
  set s1 := WebGPUEngine.endRenderPass s with hs1
  set s2 := if s1.options.supportCompute = true then WebGPUEngine.endComputePass s1 else s1
    with hs2
  have h1e : submittedBatches s1.events = submittedBatches s.events := by
    rcases WebGPUEngine.endRenderPass_events s with h | h
    · rw [hs1, h]
    · rw [hs1, h]; simp [submittedBatches_append, submittedBatches]
  have h2e : submittedBatches s2.events = submittedBatches s1.events := by
    rw [hs2]; split
    · rcases WebGPUEngine.endComputePass_events s1 with h | h
      · rw [h]
      · rw [h]; simp [submittedBatches_append, submittedBatches]
    · rfl
  refine ⟨⟨"upload", s2.uploadEncoder⟩, ⟨"render", s2.renderEncoder⟩,
    ⟨"compute", s2.computeEncoder⟩, ?_, rfl, rfl, rfl, rfl⟩
  rw [submittedBatches_append, submittedBatches_append, h2e, h1e,
    submittedBatches_map_destroy]
  simp [submittedBatches]

/-- C3: during a frame (any sequence of public calls after `beginFrame`),
no staging buffer is ever destroyed; at `endFrame` the submission event
precedes the destruction of every registered staging buffer, each
registered buffer is destroyed exactly once, and the registry is cleared. -/
theorem c3_staging_buffers_released_only_after_submission
    (ops : List Op) (s : Engine) :
    destroyedBuffers ((runOps ops (WebGPUEngine.beginFrame s)).1).events
        = destroyedBuffers (WebGPUEngine.beginFrame s).events
    ∧ (∃ (pre : List Event) (cbs : List GPUCommandBuffer),
        (WebGPUEngine.endFrame ((runOps ops (WebGPUEngine.beginFrame s)).1)).events
            = ((runOps ops (WebGPUEngine.beginFrame s)).1).events ++ pre
              ++ [Event.submit cbs]
              ++ ((runOps ops (WebGPUEngine.beginFrame s)).1).tempBuffers.map
                  (fun b => Event.destroyBuffer b.id)
          ∧ destroyedBuffers pre = []
          ∧ (WebGPUEngine.endFrame ((runOps ops (WebGPUEngine.beginFrame s)).1)).tempBuffers
              = []) :=
  ⟨runOps_destroyed ops _, endFrame_trace _⟩

/-- C9: `dispatch` while no compute pass is open is a complete no-op: the
state (pipelines, passes, encoders, trace) is returned unchanged and no
exception is raised (the function is total). -/
theorem c9_dispatch_without_compute_pass_is_noop (s : Engine) (n : Nat)
    (h : s.currentComputePass = none) :
    WebGPUEngine.dispatch s n = s := by
  unfold WebGPUEngine.dispatch
  rw [h]

/-- C9 witness: the sample engine has no compute pass open and `dispatch 7`
returns it unchanged. -/
theorem c9_dispatch_without_compute_pass_is_noop_witness :
    WebGPUEngine.dispatch sampleEngine 7 = sampleEngine :=
  c9_dispatch_without_compute_pass_is_noop sampleEngine 7 rfl

/-- C4: starting the main render pass while one is already open first
finalizes the open pass with exactly one end-pass call and clears the
open flag, then opens the new pass — the trace gains exactly
`[renderPassEnded, renderPassBegun]` and a pass is open afterwards; the
switch is implicit and raises no error (the function is total), and at
most one render pass can ever be open since `currentRenderPass` is a
single optional slot. -/
theorem c4_startRenderPass_closes_open_pass_first (s : Engine)
    (h : s.currentRenderPass.isSome = true) :
    (WebGPUEngine.startMainRenderPass s).events
        = s.events ++ [Event.renderPassEnded, Event.renderPassBegun]
    ∧ (WebGPUEngine.startMainRenderPass s).currentRenderPass.isSome = true := by
  obtain ⟨p, hp⟩ := Option.isSome_iff_exists.mp h
  unfold WebGPUEngine.startMainRenderPass WebGPUEngine.endRenderPass
  rw [hp]
  simp

/-- C4 witness: the sample engine with an open pass; the switch appends
exactly one end event then one begin event. -/
theorem c4_startRenderPass_closes_open_pass_first_witness :
    (WebGPUEngine.startMainRenderPass sampleEngineWithPass).events
        = sampleEngineWithPass.events ++ [Event.renderPassEnded, Event.renderPassBegun]
    ∧ (WebGPUEngine.startMainRenderPass sampleEngineWithPass).currentRenderPass.isSome
        = true :=
  c4_startRenderPass_closes_open_pass_first sampleEngineWithPass (by rfl)

/-- C10: `setSize` ignores its width/height arguments — two calls with
different arguments from the same state coincide — and the recreated
depth (and, under antialiasing, color) attachment textures are sized from
the canvas's current dimensions. -/
theorem c10_setSize_ignores_arguments (s : Engine) (w1 h1 w2 h2 : Nat) :
    WebGPUEngine.setSize s w1 h1 = WebGPUEngine.setSize s w2 h2
    ∧ (WebGPUEngine.setSize s w1 h1).mainTextureExtends
        = ⟨s.canvasWidth, s.canvasHeight, 1⟩
    ∧ (WebGPUEngine.setSize s w1 h1).depthTexture.map GPUTexture.extent
        = some ⟨s.canvasWidth, s.canvasHeight, 1⟩
    ∧ (s.options.antialiasing = true →
        (WebGPUEngine.setSize s w1 h1).mainTexture.map GPUTexture.extent
          = some ⟨s.canvasWidth, s.canvasHeight, 1⟩) := by
  refine ⟨rfl, ?_, ?_, ?_⟩
  · unfold WebGPUEngine.setSize WebGPUEngine.initMainAttachments
    by_cases ha : s.options.antialiasing = true <;>
      cases hm : s.mainTexture <;>
      cases hd : s.depthTexture <;>
      simp [ha, hm, hd]
  · unfold WebGPUEngine.setSize WebGPUEngine.initMainAttachments
    by_cases ha : s.options.antialiasing = true <;>
      cases hm : s.mainTexture <;>
      cases hd : s.depthTexture <;>
      simp [ha, hm, hd]
  · intro ha
    unfold WebGPUEngine.setSize WebGPUEngine.initMainAttachments
    cases hm : s.mainTexture <;>
      cases hd : s.depthTexture <;>
      simp [ha, hm, hd]

/-- C10 witness: on the antialiased engine, differing arguments give the
same state and the textures are sized 640x480x1 from the canvas. -/
theorem c10_setSize_ignores_arguments_witness :
    WebGPUEngine.setSize sampleEngineAA 10 20 = WebGPUEngine.setSize sampleEngineAA 999 1
    ∧ (WebGPUEngine.setSize sampleEngineAA 10 20).mainTexture.map GPUTexture.extent
        = some ⟨640, 480, 1⟩ :=
  ⟨(c10_setSize_ignores_arguments sampleEngineAA 10 20 999 1).1,
    (c10_setSize_ignores_arguments sampleEngineAA 10 20 999 1).2.2.2 rfl⟩

/-- Appending a fresh key to an association list makes it findable. -/
theorem lookupAssoc_append_fresh {α : Type} (l : List (String × α)) (k : String) (v : α)
    (h : lookupAssoc l k = none) : lookupAssoc (l ++ [(k, v)]) k = some v := by
  induction l with
  | nil => simp [lookupAssoc]
  | cons kv rest ih =>
    rw [lookupAssoc] at h
    rw [List.cons_append, lookupAssoc]
    split
    · rename_i hk
      rw [if_pos hk] at h
      exact absurd h (by simp)
    · rename_i hk
      rw [if_neg hk] at h
      exact ih h

/-- `setComputePipeline` on a fresh name appends exactly one cache entry
compiled from the given descriptor. -/
theorem setComputePipeline_cache_fresh (s : Engine) (n : String)
    (d : GPUComputePipelineDescriptor) (h : lookupAssoc s.computePipelines n = none) :
    (WebGPUEngine.setComputePipeline s n d).computePipelines
      = s.computePipelines ++ [(n, GPUComputePipeline.mk d)] := by
  unfold WebGPUEngine.setComputePipeline
  rw [h]
  dsimp only
  split <;> rfl

/-- `setComputePipeline` on a cached name never touches the cache. -/
theorem setComputePipeline_cache_hit (s : Engine) (n : String)
    (d : GPUComputePipelineDescriptor) (p : GPUComputePipeline)
    (h : lookupAssoc s.computePipelines n = some p) :
    (WebGPUEngine.setComputePipeline s n d).computePipelines = s.computePipelines := by
  unfold WebGPUEngine.setComputePipeline
  rw [h]
  dsimp only
  split <;> rfl

/-- C2: pipeline caching memoizes by name and ignores later descriptors.
On a fresh name with a complete first descriptor, the first
`getRenderPipeline` returns the pipeline compiled from `d1` and the
second call — with any other descriptor `d2` — returns that very same
pipeline, which is also what the cache holds; a cached entry is returned
unconditionally with the state untouched.  `setComputePipeline` obeys the
same rule: after two calls under one fresh name the cache holds the
pipeline compiled from the first descriptor. -/
theorem c2_pipeline_cache_memoizes_by_name (s : Engine) (name cname : String)
    (d1 d2 : RenderPipelineDescriptor) (cd1 cd2 : GPUComputePipelineDescriptor)
    (hfresh : lookupAssoc s.pipelines name = none)
    (hv : d1.vertexStage.isSome = true) (hf : d1.fragmentStage.isSome = true)
    (hcfresh : lookupAssoc s.computePipelines cname = none) :
    (WebGPUEngine.getRenderPipeline s name d1).1
        = compileRenderPipeline s.mainPassSampleCount s.options.swapChainFormat d1
    ∧ (WebGPUEngine.getRenderPipeline s name d1).1.isSome = true
    ∧ (WebGPUEngine.getRenderPipeline
          (WebGPUEngine.getRenderPipeline s name d1).2 name d2).1
        = (WebGPUEngine.getRenderPipeline s name d1).1
    ∧ (∀ (s2 : Engine) (d : RenderPipelineDescriptor) (p : GPURenderPipeline),
        lookupAssoc s2.pipelines name = some p →
          WebGPUEngine.getRenderPipeline s2 name d = (some p, s2))
    ∧ lookupAssoc ((WebGPUEngine.setComputePipeline
          (WebGPUEngine.setComputePipeline s cname cd1) cname cd2).computePipelines) cname
        = some (GPUComputePipeline.mk cd1) := by
  obtain ⟨vs, hvs⟩ := Option.isSome_iff_exists.mp hv
  obtain ⟨fs, hfs⟩ := Option.isSome_iff_exists.mp hf
  have hcompile : ∃ p, compileRenderPipeline s.mainPassSampleCount
      s.options.swapChainFormat d1 = some p := by
    unfold compileRenderPipeline
    rw [hvs, hfs]
    exact ⟨_, rfl⟩
  obtain ⟨p, hp⟩ := hcompile
  have h1 : WebGPUEngine.getRenderPipeline s name d1
      = (some p, { s with pipelines := s.pipelines ++ [(name, p)] }) := by
    unfold WebGPUEngine.getRenderPipeline
    rw [hfresh, hp]
  have hcached : ∀ (s2 : Engine) (d : RenderPipelineDescriptor) (q : GPURenderPipeline),
      lookupAssoc s2.pipelines name = some q →
        WebGPUEngine.getRenderPipeline s2 name d = (some q, s2) := by
    intro s2 d q hq
    unfold WebGPUEngine.getRenderPipeline
    rw [hq]
  refine ⟨by rw [h1, hp], by rw [h1]; rfl, ?_, hcached, ?_⟩
  · rw [h1]
    exact congrArg Prod.fst
      (hcached _ d2 p (lookupAssoc_append_fresh s.pipelines name p hfresh))
  · have hc1 := setComputePipeline_cache_fresh s cname cd1 hcfresh
    have hfind : lookupAssoc
        (WebGPUEngine.setComputePipeline s cname cd1).computePipelines cname
        = some (GPUComputePipeline.mk cd1) := by
      rw [hc1]
      exact lookupAssoc_append_fresh s.computePipelines cname _ hcfresh
    rw [setComputePipeline_cache_hit _ cname cd2 _ hfind]
    exact hfind

/-- C2 witness: concrete fresh engine, two different render descriptors
and two different compute descriptors under fixed names. -/
theorem c2_pipeline_cache_memoizes_by_name_witness :
    (WebGPUEngine.getRenderPipeline sampleEngine "basic" descComplete1).1
        = compileRenderPipeline sampleEngine.mainPassSampleCount
            sampleEngine.options.swapChainFormat descComplete1
    ∧ (WebGPUEngine.getRenderPipeline
          (WebGPUEngine.getRenderPipeline sampleEngine "basic" descComplete1).2
          "basic" descComplete2).1
        = (WebGPUEngine.getRenderPipeline sampleEngine "basic" descComplete1).1
    ∧ lookupAssoc ((WebGPUEngine.setComputePipeline
          (WebGPUEngine.setComputePipeline sampleEngine "k" computeDescA)
          "k" computeDescB).computePipelines) "k"
        = some (GPUComputePipeline.mk computeDescA) := by
  have h := c2_pipeline_cache_memoizes_by_name sampleEngine "basic" "k"
    descComplete1 descComplete2 computeDescA computeDescB rfl rfl rfl rfl
  exact ⟨h.1, h.2.2.1, h.2.2.2.2⟩

/-- A descriptor missing either stage never compiles a pipeline. -/
theorem compileRenderPipeline_none (sc : Nat) (fmt : TextureFormat)
    (d : RenderPipelineDescriptor)
    (h : d.vertexStage = none ∨ d.fragmentStage = none) :
    compileRenderPipeline sc fmt d = none := by
  unfold compileRenderPipeline
  split
  · rename_i vs fs hvs hfs
    rcases h with h | h
    · rw [h] at hvs; exact absurd hvs (by simp)
    · rw [h] at hfs; exact absurd hfs (by simp)
  · rfl

/-- C5 counterexample: open render pass, empty cache, descriptor lacking
a fragment stage.  The pipeline getter returns none, nothing is cached
and no exception escapes — but the requesting draw call is NOT skipped:
`drawIndexed` is still recorded into the live pass. -/
theorem c5_counterexample_draw_is_still_recorded :
    (WebGPUEngine.getRenderPipeline sampleEngineWithPass "p" descNoFragment).1 = none
    ∧ sampleEngineWithPass.pipelines = []
    ∧ ((WebGPUEngine.drawElementsType sampleEngineWithPass "p" descNoFragment 0 3 1).1).pipelines
        = []
    ∧ (WebGPUEngine.drawElementsType sampleEngineWithPass "p" descNoFragment 0 3 1).2 = none
    ∧ renderPassCommands
        ((WebGPUEngine.drawElementsType sampleEngineWithPass "p" descNoFragment 0 3 1).1)
        = [PassCommand.render (RenderCommand.drawIndexed 3 1 0 0 0)]
    ∧ renderPassCommands sampleEngineWithPass = [] := by
  exact ⟨rfl, rfl, rfl, rfl, rfl, rfl⟩

/-- C5 (amended): with a fresh name and a descriptor missing a stage,
`getRenderPipeline` returns none and inserts nothing, and the draw call
raises no error; but only the pipeline *bind* is skipped — the draw
command itself is still recorded into the open pass. -/
theorem c5_missing_stage_skips_bind_not_draw (s : Engine) (name : String)
    (d : RenderPipelineDescriptor) (p : RenderPassState)
    (indexStart indexCount instancesCount : Nat)
    (hfresh : lookupAssoc s.pipelines name = none)
    (hmiss : d.vertexStage = none ∨ d.fragmentStage = none)
    (hnb : s.bundleEncoder = none)
    (hpass : s.currentRenderPass = some p) :
    WebGPUEngine.getRenderPipeline s name d = (none, s)
    ∧ WebGPUEngine.drawElementsType s name d indexStart indexCount instancesCount
        = ({ s with
              currentRenderPass := some
                { p with commands := p.commands ++ [PassCommand.render
                    (RenderCommand.drawIndexed indexCount instancesCount indexStart 0 0)] } },
            none) := by
  have hget : WebGPUEngine.getRenderPipeline s name d = (none, s) := by
    unfold WebGPUEngine.getRenderPipeline
    rw [hfresh, compileRenderPipeline_none _ _ _ hmiss]
  refine ⟨hget, ?_⟩
  unfold WebGPUEngine.drawElementsType WebGPUEngine.setRenderPipeline
  rw [hget]
  dsimp only
  unfold WebGPUEngine.recordRenderCommand
  rw [hnb, hpass]

/-- C5 witness: the amended behavior at the concrete open-pass engine. -/
theorem c5_missing_stage_skips_bind_not_draw_witness :
    WebGPUEngine.getRenderPipeline sampleEngineWithPass "p" descNoFragment
        = (none, sampleEngineWithPass)
    ∧ WebGPUEngine.drawElementsType sampleEngineWithPass "p" descNoFragment 0 3 1
        = ({ sampleEngineWithPass with
              currentRenderPass := some
                { descriptor :=
                    { colorAttachments :=
                        [{ attachment := TextureView.swapChain 1
                           resolveTarget := none
                           loadValue := ColorLoadValue.clear ⟨0, 0, 0, 1⟩
                           storeOp := "store" }]
                      depthStencilAttachment := sampleEngineWithPass.mainDepthAttachment }
                  commands := [PassCommand.render (RenderCommand.drawIndexed 3 1 0 0 0)] } },
            none) :=
  c5_missing_stage_skips_bind_not_draw sampleEngineWithPass "p" descNoFragment
    { descriptor :=
        { colorAttachments :=
            [{ attachment := TextureView.swapChain 1
               resolveTarget := none
               loadValue := ColorLoadValue.clear ⟨0, 0, 0, 1⟩
               storeOp := "store" }]
          depthStencilAttachment := sampleEngineWithPass.mainDepthAttachment }
      commands := [] }
    0 3 1 rfl (Or.inr rfl) rfl rfl

/-- C6 counterexample: for a 3-byte source, the claim's 4-byte round-up
would give size 4, but `createBuffer` sizes the destination to
3 + 3 % 4 = 6 (not even a multiple of 4), and the staging buffer created
by `setSubData` has size exactly 3, also not rounded. -/
theorem c6_counterexample_sizes_not_rounded_to_four :
    ((WebGPUEngine.createBuffer sampleEngine [1, 2, 3] 0).1).size = 6
    ∧ ((WebGPUEngine.createBuffer sampleEngine [1, 2, 3] 0).1).size ≠ 4
    ∧ ¬ ((WebGPUEngine.createBuffer sampleEngine [1, 2, 3] 0).1).size % 4 = 0
    ∧ ((WebGPUEngine.setSubData sampleEngine sampleDestBuffer 0 [1, 2, 3]).tempBuffers.map
          GPUBuffer.size) = [3] := by
  exact ⟨rfl, by decide, by decide, rfl⟩

/-- C6 (amended): `setSubData` creates the staging buffer with size
exactly the source byte length (no rounding), copies the caller bytes
into it, records the upload copy, and registers it for deferred release
without destroying it; `createBuffer` sizes the destination buffer to
`byteLength + byteLength % 4`, which is the 4-byte round-up only when
`byteLength % 4` is 0 or 2. -/
theorem c6_staging_allocation_sizes (s : Engine) (dest : GPUBuffer)
    (destOffset : Nat) (src view : List Nat) (flags : Nat) :
    (WebGPUEngine.setSubData s dest destOffset src).tempBuffers
        = s.tempBuffers
          ++ [{ id := s.nextId, size := src.length, usage := BufferUsageCopySrc, contents := src }]
    ∧ (WebGPUEngine.setSubData s dest destOffset src).uploadEncoder
        = s.uploadEncoder ++ [EncoderCommand.copyBufferToBuffer s.nextId 0 dest.id
              destOffset src.length]
    ∧ ((WebGPUEngine.createBuffer s view flags).1).size
        = view.length + view.length % 4 :=
  ⟨rfl, rfl, rfl⟩

/-- C7 counterexample: the sample engine is configured with an RGBA8
swap-chain format, yet the bundle encoder opens with the hardcoded BGRA8
color format — the bundle is not parameterized by the configured format. -/
theorem c7_counterexample_bundle_color_format_hardcoded :
    sampleEngine.options.swapChainFormat = TextureFormat.RGBA8Unorm
    ∧ (WebGPUEngine.startRecordBundle sampleEngine).bundleEncoder.map
          GPURenderBundle.colorFormats
        = some [TextureFormat.BGRA8Unorm]
    ∧ some [TextureFormat.BGRA8Unorm]
        ≠ some [sampleEngine.options.swapChainFormat] := by
  exact ⟨rfl, rfl, by decide⟩

/-- C7 (amended): `startRecordBundle` opens a bundle-recording context
with the hardcoded `BGRA8Unorm` color format (not the configured
swap-chain format), the `Depth24PlusStencil8` depth-stencil format, and
the configured sample count; and while a bundle is open, recorded
draw/bind/vertex-input commands target the bundle in preference to the
live render pass, which stays untouched. -/
theorem c7_bundle_parameters_and_routing (s : Engine) (b : GPURenderBundle)
    (c : RenderCommand) (hb : s.bundleEncoder = some b) :
    (WebGPUEngine.startRecordBundle s).bundleEncoder
        = some { colorFormats := [TextureFormat.BGRA8Unorm]
                 depthStencilFormat := TextureFormat.Depth24PlusStencil8
                 sampleCount := s.mainPassSampleCount
                 commands := [] }
    ∧ WebGPUEngine.recordRenderCommand s c
        = ({ s with bundleEncoder := some { b with commands := b.commands ++ [c] } }, none)
    ∧ ((WebGPUEngine.recordRenderCommand s c).1).currentRenderPass
        = s.currentRenderPass := by
  have hr : WebGPUEngine.recordRenderCommand s c
      = ({ s with bundleEncoder := some { b with commands := b.commands ++ [c] } }, none) := by
    unfold WebGPUEngine.recordRenderCommand
    rw [hb]
  exact ⟨rfl, hr, by rw [hr]⟩

/-- C7 witness: bundle-open engine; the draw command lands in the bundle
and the live pass is untouched. -/
theorem c7_bundle_parameters_and_routing_witness :
    (WebGPUEngine.startRecordBundle sampleEngineWithBundle).bundleEncoder
        = some { colorFormats := [TextureFormat.BGRA8Unorm]
                 depthStencilFormat := TextureFormat.Depth24PlusStencil8
                 sampleCount := 1
                 commands := [] }
    ∧ WebGPUEngine.recordRenderCommand sampleEngineWithBundle
          (RenderCommand.draw 3 1 0 0)
        = ({ sampleEngineWithBundle with
              bundleEncoder := some
                { colorFormats := [TextureFormat.BGRA8Unorm]
                  depthStencilFormat := TextureFormat.Depth24PlusStencil8
                  sampleCount := 1
                  commands := [RenderCommand.draw 3 1 0 0] } }, none)
    ∧ ((WebGPUEngine.recordRenderCommand sampleEngineWithBundle
          (RenderCommand.draw 3 1 0 0)).1).currentRenderPass
        = sampleEngineWithBundle.currentRenderPass :=
  c7_bundle_parameters_and_routing sampleEngineWithBundle
    { colorFormats := [TextureFormat.BGRA8Unorm]
      depthStencilFormat := TextureFormat.Depth24PlusStencil8
      sampleCount := 1
      commands := [] }
    (RenderCommand.draw 3 1 0 0) rfl

/-- C8: with a bundle open, `stopRecordBundle` finalizes and returns the
recorded bundle and clears the bundle context, so subsequent draw
commands route to the live render pass again; with no bundle open, the
call fails immediately with the invalid-state exception (the source's
`this.bundleEncoder!.finish()` throw). -/
theorem c8_stopRecordBundle_returns_bundle_or_fails (s : Engine) (b : GPURenderBundle)
    (hb : s.bundleEncoder = some b) :
    WebGPUEngine.stopRecordBundle s = Except.ok (b, { s with bundleEncoder := none })
    ∧ (∀ (p : RenderPassState) (c : RenderCommand),
        s.currentRenderPass = some p →
          WebGPUEngine.recordRenderCommand { s with bundleEncoder := none } c
            = ({ { s with bundleEncoder := none } with
                  currentRenderPass := some
                    { p with commands := p.commands ++ [PassCommand.render c] } }, none))
    ∧ (∀ s2 : Engine, s2.bundleEncoder = none →
        WebGPUEngine.stopRecordBundle s2 = Except.error EngineError.nullAccess) := by
  refine ⟨?_, ?_, ?_⟩
  · unfold WebGPUEngine.stopRecordBundle
    rw [hb]
  · intro p c hp
    unfold WebGPUEngine.recordRenderCommand
    dsimp only
    rw [hp]
  · intro s2 h2
    unfold WebGPUEngine.stopRecordBundle
    rw [h2]

/-- C8 witness: stopping the open bundle returns it and clears the
context; stopping again fails with the invalid-state exception. -/
theorem c8_stopRecordBundle_returns_bundle_or_fails_witness :
    WebGPUEngine.stopRecordBundle sampleEngineWithBundle
        = Except.ok
            ({ colorFormats := [TextureFormat.BGRA8Unorm]
               depthStencilFormat := TextureFormat.Depth24PlusStencil8
               sampleCount := 1
               commands := [] },
              { sampleEngineWithBundle with bundleEncoder := none })
    ∧ WebGPUEngine.stopRecordBundle sampleEngine
        = Except.error EngineError.nullAccess := by
  have h := c8_stopRecordBundle_returns_bundle_or_fails sampleEngineWithBundle
    { colorFormats := [TextureFormat.BGRA8Unorm]
      depthStencilFormat := TextureFormat.Depth24PlusStencil8
      sampleCount := 1
      commands := [] } rfl
  exact ⟨h.1, h.2.2 sampleEngine rfl⟩

end GWebGPU
